import Mathlib

/-!
Verification of the `foodmini-vit` utility layer (`data_setup.py`, `model_builder.py`).

The Python modules are shallowly embedded:
* paths are lists of path components, and the filesystem is a finite record of
  directories and files (with byte contents);
* the network (`requests.get`) and archive extraction (`zipfile.ZipFile(...)` /
  `extractall`) are oracle functions passed as parameters, returning
  `Except PyError` results to model the raised exceptions;
* `download_data` is a state transition on the filesystem that also records the
  ordered trace of externally visible effects it performs;
* `torchvision.datasets.ImageFolder` and `torch.utils.data.DataLoader` are
  embedded following their documented semantics (sorted subdirectory scan,
  shuffle / order-preserving traversal);
* the ViT model factory is embedded with an explicit global RNG state standing
  for torch's global seed.
-/

/-- Python exceptions relevant to these modules, by origin. -/
inductive PyError where
  | fileNotFound (msg : String)
  | networkError (msg : String)
  | badZipFile (msg : String)
deriving DecidableEq, Repr

/-- A filesystem path, as its list of components (relative to the CWD). -/
abbrev FsPath := List String

/-- File contents, as a list of bytes. -/
abbrev Bytes := List Nat

/-- The filesystem state: the set of existing directories and the existing
files with their contents.  Lists may contain duplicate directory entries;
membership is what matters. -/
structure FS where
  dirs : List FsPath
  files : List (FsPath × Bytes)
deriving DecidableEq, Repr

/-- `Path.is_dir()` in Python: the path exists as a directory. -/
def FS.isDir (fs : FS) (p : FsPath) : Bool :=
  decide (p ∈ fs.dirs)

/-- Contents of the file at `p`, when it exists. -/
def FS.readFile (fs : FS) (p : FsPath) : Option Bytes :=
  (fs.files.find? (fun e => decide (e.1 = p))).map Prod.snd

/-- Whether a file exists at path `p`. -/
def FS.fileExists (fs : FS) (p : FsPath) : Bool :=
  (fs.readFile p).isSome

/-- All non-empty prefixes of a path: the directories `mkdir(parents=True)`
creates. -/
def pathPrefixes (p : FsPath) : List FsPath :=
  (List.range p.length).map (fun i => p.take (i + 1))

/-- `Path.mkdir(parents=True, exist_ok=True)`: create the directory and all
its ancestors. -/
def FS.mkdirParents (fs : FS) (p : FsPath) : FS :=
  { fs with dirs := pathPrefixes p ++ fs.dirs }

/-- `open(p, "wb")` followed by writing `b`: create or truncate the file at
`p` and set its contents to `b`. -/
def FS.writeFile (fs : FS) (p : FsPath) (b : Bytes) : FS :=
  { fs with files := (p, b) :: fs.files.filter (fun e => decide (e.1 ≠ p)) }

/-- `os.remove(p)`: delete the file at `p`. -/
def FS.removeFile (fs : FS) (p : FsPath) : FS :=
  { fs with files := fs.files.filter (fun e => decide (e.1 ≠ p)) }

/-- Split a character list at each occurrence of `sep`. -/
def splitCharAux (sep : Char) : List Char → List Char → List (List Char)
  | [], acc => [acc.reverse]
  | c :: cs, acc =>
    if c = sep then acc.reverse :: splitCharAux sep cs []
    else splitCharAux sep cs (c :: acc)

/-- Split a string on `/`, dropping empty components (pure-path
normalization). -/
def splitSlash (s : String) : List String :=
  ((splitCharAux '/' s.data []).map (fun cs => String.mk cs)).filter
    (fun c => decide (c ≠ ""))

/-- `pathlib.Path(source).name`: the final path segment of `source`. -/
def pathFinalSegment (source : String) : String :=
  (splitSlash source).getLastD ""

/-- Externally visible effects performed by `download_data`, in program
order.  Informational `print` calls are not effects and are not recorded. -/
inductive Effect where
  | mkdir (p : FsPath)
  | netGet (url : String)
  | fileWrite (p : FsPath)
  | extract (archive dest : FsPath)
  | fileDelete (p : FsPath)
deriving DecidableEq, Repr

/-- The `data/` root used by `download_data`. -/
def dataPath : FsPath := ["data"]

/-- `zip_ref.extractall(dest)`: write every archive entry (relative name and
bytes) under `dest`, creating intermediate directories. -/
def extractAllTo (fs : FS) (dest : FsPath) (entries : List (String × Bytes)) : FS :=
  entries.foldl
    (fun acc e =>
      (acc.mkdirParents (dest ++ (splitSlash e.1).dropLast)).writeFile
        (dest ++ splitSlash e.1) e.2)
    fs

/-- Embedding of `data_setup.download_data(source, destination, remove_source)`.

`net` is the `requests.get` oracle (URL to response body), `unzip` the
`zipfile` oracle (archive bytes to entry list); both raise by returning
`.error`.  The result is the final filesystem, the ordered effect trace, and
either the returned `pathlib.Path` or the propagated exception. -/
def download_data (net : String → Except PyError Bytes)
    (unzip : Bytes → Except PyError (List (String × Bytes)))
    (fs : FS) (source destination : String) (remove_source : Bool) :
    FS × List Effect × Except PyError FsPath :=
  let image_path : FsPath := dataPath ++ [destination]
  if fs.isDir image_path then
    (fs, [], .ok image_path)
  else
    let fs1 := fs.mkdirParents image_path
    let target_file := pathFinalSegment source
    let archive : FsPath := dataPath ++ [target_file]
    -- `open(data_path / target_file, "wb")` creates (truncates) the file
    -- before the request is issued.
    let fs2 := fs1.writeFile archive []
    match net source with
    | .error e => (fs2, [.mkdir image_path, .netGet source], .error e)
    | .ok body =>
      let fs3 := fs2.writeFile archive body
      match unzip body with
      | .error e =>
        (fs3, [.mkdir image_path, .netGet source, .fileWrite archive], .error e)
      | .ok entries =>
        let fs4 := extractAllTo fs3 image_path entries
        if remove_source then
          (fs4.removeFile archive,
           [.mkdir image_path, .netGet source, .fileWrite archive,
            .extract archive image_path, .fileDelete archive],
           .ok image_path)
        else
          (fs4,
           [.mkdir image_path, .netGet source, .fileWrite archive,
            .extract archive image_path],
           .ok image_path)

/-! ### Dataloader factory (`data_setup.create_dataloaders`) -/

/-- Caller-supplied torchvision transform; opaque to this component, so
modelled as an abstract tag carried along unchanged. -/
abbrev Transform := Nat

/-- `d` is an immediate child of `root`: returns its final name. -/
def immediateChildName (root d : FsPath) : Option String :=
  match d.drop root.length with
  | [n] => if d.take root.length = root then some n else none
  | _ => none

/-- Lexicographic comparison of character lists by code point. -/
def charListLe : List Char → List Char → Bool
  | [], _ => true
  | _ :: _, [] => false
  | a :: as, b :: bs =>
    if a.val < b.val then true
    else if b.val < a.val then false
    else charListLe as bs

/-- Python's string order: lexicographic by code point. -/
def strLe (s t : String) : Bool :=
  charListLe s.data t.data

/-- Insert a string into a sorted list (ascending). -/
def insertSorted (s : String) : List String → List String
  | [] => [s]
  | t :: ts => if strLe s t then s :: t :: ts else t :: insertSorted s ts

/-- Insertion sort on strings, modelling Python's `sorted`. -/
def sortStrings : List String → List String
  | [] => []
  | s :: ss => insertSorted s (sortStrings ss)

/-- The immediate subdirectory names of `root` (each once), in scan order. -/
def scanSubdirNames (fs : FS) (root : FsPath) : List String :=
  (fs.dirs.filterMap (immediateChildName root)).dedup

/-- The immediate file names directly inside `dir` (each once), in scan
order. -/
def scanFileNames (fs : FS) (dir : FsPath) : List String :=
  ((fs.files.map Prod.fst).filterMap (immediateChildName dir)).dedup

/-- `torchvision.datasets.folder.find_classes`: the sorted names of the
immediate subdirectories of `root`. -/
def find_classes (fs : FS) (root : FsPath) : List String :=
  sortStrings (scanSubdirNames fs root)

/-- Embedding of a constructed `torchvision.datasets.ImageFolder`. -/
structure ImageFolder where
  root : FsPath
  transform : Transform
  classes : List String
  samples : List (FsPath × Nat)
deriving DecidableEq, Repr

/-- `datasets.ImageFolder(root, transform)`: scan `root`, take the sorted
subdirectory names as classes, and collect each class directory's files (in
sorted order) as samples labelled with the class index.  Raises
`FileNotFoundError` when `root` is missing or contains no class folder. -/
def ImageFolder.make (fs : FS) (root : FsPath) (transform : Transform) :
    Except PyError ImageFolder :=
  if fs.isDir root = false then
    .error (.fileNotFound "root directory not found")
  else if find_classes fs root = [] then
    .error (.fileNotFound "could not find any class folder")
  else
    .ok { root := root, transform := transform, classes := find_classes fs root,
          samples :=
            (find_classes fs root).enum.flatMap (fun ci =>
              (sortStrings (scanFileNames fs (root ++ [ci.2]))).map
                (fun f => (root ++ [ci.2, f], ci.1))) }

/-- Embedding of a constructed `torch.utils.data.DataLoader`: the
configuration recorded at construction time. -/
structure DataLoader where
  dataset : ImageFolder
  batch_size : Nat
  shuffle : Bool
  num_workers : Nat
  pin_memory : Bool
deriving DecidableEq, Repr

/-- One full traversal (epoch) of a `DataLoader`: `randperm` is the fresh
random permutation the library draws at the start of this traversal.  With
`shuffle=True` the samples are visited in the permuted order; with
`shuffle=False` they are visited in dataset (directory-discovery) order. -/
def DataLoader.epochOrder (dl : DataLoader) (randperm : List Nat) :
    List (FsPath × Nat) :=
  if dl.shuffle then randperm.filterMap (fun i => dl.dataset.samples.get? i)
  else dl.dataset.samples

/-- `data_setup.NUM_WORKERS = os.cpu_count()`: the module-level default
worker count, a function of the host's logical CPU count observed once at
module load. -/
def NUM_WORKERS (cpu_count : Nat) : Nat := cpu_count

/-- Embedding of `data_setup.create_dataloaders`.  `cpu_count` is the host
CPU count captured at module load (feeding the `NUM_WORKERS` default);
`num_workers = none` models omitting the optional argument. -/
def create_dataloaders (cpu_count : Nat) (fs : FS)
    (train_dir test_dir : FsPath)
    (train_transform test_transform : Transform)
    (batch_size : Nat) (num_workers : Option Nat) :
    Except PyError (DataLoader × DataLoader × List String) :=
  match ImageFolder.make fs train_dir train_transform with
  | .error e => .error e
  | .ok train_data =>
    match ImageFolder.make fs test_dir test_transform with
    | .error e => .error e
    | .ok test_data =>
      .ok ({ dataset := train_data, batch_size := batch_size, shuffle := true,
             num_workers := num_workers.getD (NUM_WORKERS cpu_count),
             pin_memory := true },
           { dataset := test_data, batch_size := batch_size, shuffle := false,
             num_workers := num_workers.getD (NUM_WORKERS cpu_count),
             pin_memory := true },
           train_data.classes)

/-! ### Model factory (`model_builder.create_model_baseline_vit`) -/

/-- A compute-device identifier (`torch.device`), abstract. -/
abbrev Device := String

/-- torch's process-wide state: the global RNG seed. -/
structure TorchState where
  seed : Nat
deriving DecidableEq, Repr

/-- Modelled from the spec: `utils.set_seeds` is imported by
`model_builder.py` but `utils.py` is not under `src/`.  Per the spec it
"fixes a global random seed (for reproducible head initialization)", so it is
modelled as setting the global RNG seed to a fixed constant. -/
def set_seeds (st : TorchState) : TorchState :=
  { st with seed := 42 }

/-- A parameter tensor of a torch module: its gradient-tracking flag and
device placement. -/
structure Param where
  requires_grad : Bool
  device : Option Device
deriving DecidableEq, Repr

/-- A `torch.nn.Linear` layer: shape, weight and bias values, and the
gradient-tracking flag and device of its parameters. -/
structure Linear where
  in_features : Nat
  out_features : Nat
  weight : List (List Int)
  bias : List Int
  requires_grad : Bool
  device : Option Device
deriving DecidableEq, Repr

/-- The weight values torch's default init draws for a `Linear(inF, outF)`
layer: a deterministic function of the global seed and the shape (standing
for the library's seeded pseudo-random draw). -/
def initLinearWeight (seed inF outF : Nat) : List (List Int) :=
  (List.range outF).map (fun i =>
    (List.range inF).map (fun j => Int.ofNat ((seed + i * inF + j) % 97)))

/-- The bias values torch's default init draws for a `Linear(_, outF)`
layer, as a deterministic function of the global seed. -/
def initLinearBias (seed outF : Nat) : List Int :=
  (List.range outF).map (fun i => Int.ofNat ((seed + i) % 89))

/-- `nn.Linear(in_features, out_features)`: a newly initialized linear layer,
its values drawn from the global RNG, gradient tracking enabled (the torch
default), on the default device. -/
def Linear.new (st : TorchState) (inF outF : Nat) : Linear :=
  { in_features := inF, out_features := outF,
    weight := initLinearWeight st.seed inF outF,
    bias := initLinearBias st.seed outF,
    requires_grad := true, device := none }

/-- `.to(device)` on a linear layer; `.to(None)` is a no-op. -/
def Linear.toDevice (l : Linear) (d : Option Device) : Linear :=
  match d with
  | none => l
  | some dev => { l with device := some dev }

/-- Embedding of the `torchvision.models.vit_b_16` module: the pretrained
backbone parameter tensors and the pretrained classification head. -/
structure ViTModel where
  backbone : List Param
  heads : Linear
deriving DecidableEq, Repr

/-- The fixed, versioned pretrained weight set
(`torchvision.models.ViT_B_16_Weights.DEFAULT`), abstract. -/
def ViT_B_16_Weights_DEFAULT : Nat := 0

/-- Placeholder values of the pretrained head weights (ViT-B/16 ships a
768-to-1000 classification head). -/
def pretrainedHeadWeight : List (List Int) :=
  (List.range 1000).map (fun i => (List.range 768).map (fun j => Int.ofNat (i + j)))

/-- `torchvision.models.vit_b_16(weights=...)`: the pretrained model, all
parameters with gradient tracking enabled, on the default device.  The
backbone parameter count is a placeholder; no theorem depends on it. -/
def vit_b_16 (w : Nat) : ViTModel :=
  { backbone := List.replicate (150 + w) { requires_grad := true, device := none },
    heads :=
      { in_features := 768, out_features := 1000,
        weight := pretrainedHeadWeight,
        bias := List.replicate 1000 (0 : Int),
        requires_grad := true, device := none } }

/-- `.to(device)` on the full model; `.to(None)` is a no-op. -/
def ViTModel.toDevice (m : ViTModel) (d : Option Device) : ViTModel :=
  match d with
  | none => m
  | some dev =>
    { backbone := m.backbone.map (fun p => { p with device := some dev }),
      heads := m.heads.toDevice (some dev) }

/-- Embedding of `model_builder.create_model_baseline_vit(out_feats, device)`.
Returns the updated global torch state together with the model.  The
`for param in pretrained_vit.parameters()` loop disables gradient tracking on
every parameter of the model at that point (backbone and the still-pretrained
head); the head is then replaced by a fresh `nn.Linear(768, out_feats)` moved
to `device`. -/
def create_model_baseline_vit (st : TorchState) (out_feats : Nat)
    (device : Option Device) : TorchState × ViTModel :=
  let weights := ViT_B_16_Weights_DEFAULT
  let pretrained_vit := (vit_b_16 weights).toDevice device
  let pretrained_vit : ViTModel :=
    { backbone := pretrained_vit.backbone.map (fun p => { p with requires_grad := false }),
      heads := { pretrained_vit.heads with requires_grad := false } }
  let st := set_seeds st
  let pretrained_vit : ViTModel :=
    { pretrained_vit with heads := (Linear.new st 768 out_feats).toDevice device }
  (st, pretrained_vit)

/-! ### Concrete fixtures used to instantiate the theorems -/

/-- A network oracle always answering the body `[1, 2]`. -/
def okNet : String → Except PyError Bytes := fun _ => .ok [1, 2]

/-- A network oracle that always fails. -/
def failNet : String → Except PyError Bytes :=
  fun _ => .error (.networkError "connection refused")

/-- An archive oracle yielding one `pizza/x.jpg` entry. -/
def okUnzip : Bytes → Except PyError (List (String × Bytes)) :=
  fun _ => .ok [("pizza/x.jpg", [7])]

/-- An archive oracle that always fails. -/
def failUnzip : Bytes → Except PyError (List (String × Bytes)) :=
  fun _ => .error (.badZipFile "not a zip file")

/-- An empty filesystem. -/
def emptyFS : FS := { dirs := [], files := [] }

/-- A filesystem in which `data/food` already exists. -/
def fsWithFood : FS := { dirs := [["data"], ["data", "food"]], files := [] }

/-- A filesystem with a populated train/test image tree (the test tree has a
class `sushi` absent from the train tree). -/
def fsImageTree : FS :=
  { dirs := [["train"], ["train", "pizza"], ["train", "steak"],
             ["test"], ["test", "pizza"], ["test", "sushi"]],
    files := [(["train", "pizza", "a.jpg"], [1]), (["train", "steak", "b.jpg"], [2]),
              (["test", "pizza", "c.jpg"], [3]), (["test", "sushi", "d.jpg"], [4])] }

/-- A placeholder dataloader value, used only when projecting out of a
successful `create_dataloaders` fixture run. -/
def dummyLoader : DataLoader :=
  { dataset := { root := [], transform := 0, classes := [], samples := [] },
    batch_size := 0, shuffle := false, num_workers := 0, pin_memory := false }

/-- The concrete output of `create_dataloaders` on `fsImageTree`. -/
def demoOut : DataLoader × DataLoader × List String :=
  match create_dataloaders 8 fsImageTree ["train"] ["test"] 0 1 32 none with
  | .ok out => out
  | .error _ => (dummyLoader, dummyLoader, [])

/-! ### Helper lemmas about the filesystem model -/

theorem FS.isDir_writeFile (fs : FS) (p q : FsPath) (b : Bytes) :
    (fs.writeFile p b).isDir q = fs.isDir q := rfl

theorem FS.isDir_removeFile (fs : FS) (p q : FsPath) :
    (fs.removeFile p).isDir q = fs.isDir q := rfl

theorem FS.readFile_mkdirParents (fs : FS) (d q : FsPath) :
    (fs.mkdirParents d).readFile q = fs.readFile q := rfl

theorem FS.fileExists_mkdirParents (fs : FS) (d q : FsPath) :
    (fs.mkdirParents d).fileExists q = fs.fileExists q := rfl

theorem FS.dirs_writeFile (fs : FS) (p : FsPath) (b : Bytes) :
    (fs.writeFile p b).dirs = fs.dirs := rfl

theorem FS.dirs_removeFile (fs : FS) (p : FsPath) :
    (fs.removeFile p).dirs = fs.dirs := rfl

theorem FS.isDir_mkdirParents_mono (fs : FS) (d p : FsPath) (h : fs.isDir p = true) :
    (fs.mkdirParents d).isDir p = true := by
  simp only [FS.isDir, decide_eq_true_eq, FS.mkdirParents, List.mem_append] at *
  exact Or.inr h

theorem FS.isDir_mkdirParents_self (fs : FS) (p : FsPath) (h : p ≠ []) :
    (fs.mkdirParents p).isDir p = true := by
  simp only [FS.isDir, decide_eq_true_eq, FS.mkdirParents, List.mem_append]
  left
  simp only [pathPrefixes, List.mem_map, List.mem_range]
  have hpos : 0 < p.length := List.length_pos.mpr h
  refine ⟨p.length - 1, by omega, ?_⟩
  have hlen : p.length - 1 + 1 = p.length := by omega
  rw [hlen, List.take_length]

theorem find?_filter_path_ne (l : List (FsPath × Bytes)) (p q : FsPath) (h : q ≠ p) :
    (l.filter (fun e => decide (e.1 ≠ p))).find? (fun e => decide (e.1 = q))
      = l.find? (fun e => decide (e.1 = q)) := by
  induction l with
  | nil => rfl
  | cons a t ih =>
    rw [List.filter_cons]
    by_cases h1 : a.1 = p
    · have hq : (decide (a.1 = q)) = false := by
        refine decide_eq_false ?_
        intro hh
        refine h ?_
        rw [← hh]
        exact h1
      rw [if_neg (by simp [h1]), ih]
      simp only [List.find?_cons, hq]
    · rw [if_pos (by simp [h1])]
      by_cases h2 : a.1 = q
      · have hq : (decide (a.1 = q)) = true := decide_eq_true h2
        simp only [List.find?_cons, hq]
      · have hq : (decide (a.1 = q)) = false := decide_eq_false h2
        simp only [List.find?_cons, hq]
        exact ih

theorem find?_filter_path_self (l : List (FsPath × Bytes)) (p : FsPath) :
    (l.filter (fun e => decide (e.1 ≠ p))).find? (fun e => decide (e.1 = p)) = none := by
  induction l with
  | nil => rfl
  | cons a t ih =>
    by_cases h1 : a.1 = p
    · simp [List.filter_cons, h1, ih]
    · simp [List.filter_cons, h1, List.find?_cons, ih]

theorem FS.readFile_writeFile_self (fs : FS) (p : FsPath) (b : Bytes) :
    (fs.writeFile p b).readFile p = some b := by
  simp [FS.readFile, FS.writeFile, List.find?_cons]

theorem FS.readFile_writeFile_ne (fs : FS) (p q : FsPath) (b : Bytes) (h : q ≠ p) :
    (fs.writeFile p b).readFile q = fs.readFile q := by
  have hp : (decide (p = q)) = false := decide_eq_false (fun hh => h hh.symm)
  simp only [FS.readFile, FS.writeFile, List.find?_cons, hp]
  rw [find?_filter_path_ne _ _ _ h]

theorem FS.readFile_removeFile_self (fs : FS) (p : FsPath) :
    (fs.removeFile p).readFile p = none := by
  simp [FS.readFile, FS.removeFile, find?_filter_path_self]

theorem FS.readFile_removeFile_ne (fs : FS) (p q : FsPath) (h : q ≠ p) :
    (fs.removeFile p).readFile q = fs.readFile q := by
  simp only [FS.readFile, FS.removeFile]
  rw [find?_filter_path_ne _ _ _ h]

theorem FS.fileExists_removeFile_self (fs : FS) (p : FsPath) :
    (fs.removeFile p).fileExists p = false := by
  simp [FS.fileExists, FS.readFile_removeFile_self]

theorem FS.fileExists_writeFile_self (fs : FS) (p : FsPath) (b : Bytes) :
    (fs.writeFile p b).fileExists p = true := by
  simp [FS.fileExists, FS.readFile_writeFile_self]

theorem FS.fileExists_writeFile_mono (fs : FS) (p q : FsPath) (b : Bytes)
    (h : fs.fileExists q = true) : (fs.writeFile p b).fileExists q = true := by
  by_cases hq : q = p
  · subst hq; exact fs.fileExists_writeFile_self q b
  · rw [FS.fileExists, FS.readFile_writeFile_ne _ _ _ _ hq]; exact h

theorem extractAllTo_nil (fs : FS) (dest : FsPath) : extractAllTo fs dest [] = fs := rfl

theorem extractAllTo_cons (fs : FS) (dest : FsPath) (e : String × Bytes)
    (es : List (String × Bytes)) :
    extractAllTo fs dest (e :: es)
      = extractAllTo
          ((fs.mkdirParents (dest ++ (splitSlash e.1).dropLast)).writeFile
            (dest ++ splitSlash e.1) e.2) dest es := rfl

theorem isDir_extractAllTo_mono (fs : FS) (dest : FsPath) (es : List (String × Bytes))
    (p : FsPath) (h : fs.isDir p = true) : (extractAllTo fs dest es).isDir p = true := by
  induction es generalizing fs with
  | nil => exact h
  | cons a t ih =>
    rw [extractAllTo_cons]
    refine ih _ ?_
    rw [FS.isDir_writeFile]
    exact FS.isDir_mkdirParents_mono _ _ _ h

theorem fileExists_extractAllTo_mono (fs : FS) (dest : FsPath)
    (es : List (String × Bytes)) (q : FsPath) (h : fs.fileExists q = true) :
    (extractAllTo fs dest es).fileExists q = true := by
  induction es generalizing fs with
  | nil => exact h
  | cons a t ih =>
    rw [extractAllTo_cons]
    refine ih _ ?_
    refine FS.fileExists_writeFile_mono _ _ _ _ ?_
    rw [FS.fileExists_mkdirParents]
    exact h

theorem readFile_extractAllTo_notMem (fs : FS) (dest : FsPath)
    (es : List (String × Bytes)) (q : FsPath)
    (h : ∀ e ∈ es, dest ++ splitSlash e.1 ≠ q) :
    (extractAllTo fs dest es).readFile q = fs.readFile q := by
  induction es generalizing fs with
  | nil => rfl
  | cons a t ih =>
    rw [extractAllTo_cons, ih _ (fun e he => h e (List.mem_cons_of_mem a he)),
        FS.readFile_writeFile_ne _ _ _ _ (Ne.symm (h a (List.mem_cons_self a t))),
        FS.readFile_mkdirParents]

theorem readFile_extractAllTo_mem (fs : FS) (dest : FsPath)
    (es : List (String × Bytes)) (e : String × Bytes)
    (hnd : (es.map (fun x => dest ++ splitSlash x.1)).Nodup) (he : e ∈ es) :
    (extractAllTo fs dest es).readFile (dest ++ splitSlash e.1) = some e.2 := by
  induction es generalizing fs with
  | nil => cases he
  | cons a t ih =>
    simp only [List.map_cons, List.nodup_cons] at hnd
    rw [extractAllTo_cons]
    rcases List.mem_cons.mp he with rfl | hmem
    · have hnot : ∀ x ∈ t, dest ++ splitSlash x.1 ≠ dest ++ splitSlash e.1 := by
        intro x hx hcontra
        exact hnd.1 (hcontra ▸ List.mem_map_of_mem _ hx)
      rw [readFile_extractAllTo_notMem _ _ _ _ hnot, FS.readFile_writeFile_self]
    · exact ih _ hnd.2 hmem

/-- When the destination directory exists, `download_data` is a pure skip. -/
theorem download_data_skip_helper (net : String → Except PyError Bytes)
    (unzip : Bytes → Except PyError (List (String × Bytes)))
    (fs : FS) (source destination : String) (remove_source : Bool)
    (h : fs.isDir (dataPath ++ [destination]) = true) :
    download_data net unzip fs source destination remove_source
      = (fs, [], .ok (dataPath ++ [destination])) := by
  unfold download_data
  simp [h]

/-! ### Claim theorems -/

/-- C1: for every call `download_data(source, destination, remove_source)`
in which `data/<destination>` already exists, the function performs no
network request, no file creation, no extraction and no deletion (the effect
trace is empty and the filesystem is unchanged), and returns the existing
path `data/<destination>` unchanged; the directory's existence is the only
condition tested (the claim holds for every `net`/`unzip` oracle and every
`remove_source`). -/
theorem C1_download_data_existing_dir_skip (net : String → Except PyError Bytes)
    (unzip : Bytes → Except PyError (List (String × Bytes)))
    (fs : FS) (source destination : String) (remove_source : Bool)
    (h : fs.isDir (dataPath ++ [destination]) = true) :
    download_data net unzip fs source destination remove_source
      = (fs, [], .ok (dataPath ++ [destination])) :=
  download_data_skip_helper net unzip fs source destination remove_source h

/-- C1 witness: on a filesystem where `data/food` exists, the call leaves
the state untouched, performs no effect and returns `data/food`. -/
theorem C1_witness :
    fsWithFood.isDir (dataPath ++ ["food"]) = true
      ∧ download_data okNet okUnzip fsWithFood "https://x/y.zip" "food" true
          = (fsWithFood, [], .ok (dataPath ++ ["food"])) :=
  ⟨by decide,
   C1_download_data_existing_dir_skip okNet okUnzip fsWithFood "https://x/y.zip"
     "food" true (by decide)⟩

/-- C2: for every call in which `data/<destination>` does not yet exist and
every step succeeds, `download_data` performs, in this order: create the
destination directory (with parents), HTTP-GET `source` and write the full
body into `data/<final path segment of source>`, extract the entire archive
into `data/<destination>`, and, exactly when `remove_source` is true, delete
the archive; afterwards the destination directory exists, the extracted
entries are present under it, the archive is gone when `remove_source=True`,
and the path `data/<destination>` is returned. -/
theorem C2_download_data_fresh_run (net : String → Except PyError Bytes)
    (unzip : Bytes → Except PyError (List (String × Bytes)))
    (fs : FS) (source destination : String) (remove_source : Bool)
    (body : Bytes) (entries : List (String × Bytes))
    (hdir : fs.isDir (dataPath ++ [destination]) = false)
    (hnet : net source = .ok body)
    (hzip : unzip body = .ok entries)
    (hsplit : ∀ e ∈ entries, splitSlash e.1 ≠ [])
    (hnd : (entries.map (fun e => (dataPath ++ [destination]) ++ splitSlash e.1)).Nodup) :
    download_data net unzip fs source destination remove_source
      = ((if remove_source then
            (extractAllTo
              (((fs.mkdirParents (dataPath ++ [destination])).writeFile
                  (dataPath ++ [pathFinalSegment source]) []).writeFile
                (dataPath ++ [pathFinalSegment source]) body)
              (dataPath ++ [destination]) entries).removeFile
              (dataPath ++ [pathFinalSegment source])
          else
            extractAllTo
              (((fs.mkdirParents (dataPath ++ [destination])).writeFile
                  (dataPath ++ [pathFinalSegment source]) []).writeFile
                (dataPath ++ [pathFinalSegment source]) body)
              (dataPath ++ [destination]) entries),
         [Effect.mkdir (dataPath ++ [destination]), Effect.netGet source,
          Effect.fileWrite (dataPath ++ [pathFinalSegment source]),
          Effect.extract (dataPath ++ [pathFinalSegment source]) (dataPath ++ [destination])]
           ++ (if remove_source then
                 [Effect.fileDelete (dataPath ++ [pathFinalSegment source])]
               else []),
         .ok (dataPath ++ [destination]))
    ∧ (download_data net unzip fs source destination remove_source).1.isDir
        (dataPath ++ [destination]) = true
    ∧ (remove_source = true →
        (download_data net unzip fs source destination remove_source).1.fileExists
          (dataPath ++ [pathFinalSegment source]) = false)
    ∧ ∀ e ∈ entries,
        (download_data net unzip fs source destination remove_source).1.readFile
          ((dataPath ++ [destination]) ++ splitSlash e.1) = some e.2 := by
  have hip : (dataPath ++ [destination] : FsPath) ≠ [] := by simp [dataPath]
  have hdirafter :
      (extractAllTo
        (((fs.mkdirParents (dataPath ++ [destination])).writeFile
            (dataPath ++ [pathFinalSegment source]) []).writeFile
          (dataPath ++ [pathFinalSegment source]) body)
        (dataPath ++ [destination]) entries).isDir (dataPath ++ [destination]) = true := by
    refine isDir_extractAllTo_mono _ _ _ _ ?_
    rw [FS.isDir_writeFile, FS.isDir_writeFile]
    exact FS.isDir_mkdirParents_self _ _ hip
  cases remove_source with
  | false =>
    have heq : download_data net unzip fs source destination false
        = (extractAllTo
            (((fs.mkdirParents (dataPath ++ [destination])).writeFile
                (dataPath ++ [pathFinalSegment source]) []).writeFile
              (dataPath ++ [pathFinalSegment source]) body)
            (dataPath ++ [destination]) entries,
           [Effect.mkdir (dataPath ++ [destination]), Effect.netGet source,
            Effect.fileWrite (dataPath ++ [pathFinalSegment source]),
            Effect.extract (dataPath ++ [pathFinalSegment source])
              (dataPath ++ [destination])],
           .ok (dataPath ++ [destination])) := by
      unfold download_data
      simp only [hdir, Bool.false_eq_true, if_false, hnet, hzip]
    refine ⟨by rw [heq]; simp, ?_, ?_, ?_⟩
    · rw [heq]
      exact hdirafter
    · intro hcontra
      exact absurd hcontra (by decide)
    · intro e he
      rw [heq]
      exact readFile_extractAllTo_mem _ _ _ _ hnd he
  | true =>
    have heq : download_data net unzip fs source destination true
        = ((extractAllTo
             (((fs.mkdirParents (dataPath ++ [destination])).writeFile
                 (dataPath ++ [pathFinalSegment source]) []).writeFile
               (dataPath ++ [pathFinalSegment source]) body)
             (dataPath ++ [destination]) entries).removeFile
             (dataPath ++ [pathFinalSegment source]),
           [Effect.mkdir (dataPath ++ [destination]), Effect.netGet source,
            Effect.fileWrite (dataPath ++ [pathFinalSegment source]),
            Effect.extract (dataPath ++ [pathFinalSegment source])
              (dataPath ++ [destination]),
            Effect.fileDelete (dataPath ++ [pathFinalSegment source])],
           .ok (dataPath ++ [destination])) := by
      unfold download_data
      simp only [hdir, Bool.false_eq_true, if_false, hnet, hzip, if_true]
    refine ⟨by rw [heq]; simp, ?_, ?_, ?_⟩
    · rw [heq, FS.isDir_removeFile]
      exact hdirafter
    · intro _
      rw [heq]
      exact FS.fileExists_removeFile_self _ _
    · intro e he
      have hne : (dataPath ++ [destination]) ++ splitSlash e.1
          ≠ dataPath ++ [pathFinalSegment source] := by
        intro hcontra
        have hlen := congrArg List.length hcontra
        simp only [List.length_append, dataPath, List.length_cons,
          List.length_singleton, List.length_nil] at hlen
        have : (splitSlash e.1).length = 0 := by omega
        exact hsplit e he (List.length_eq_zero.mp this)
      rw [heq, FS.readFile_removeFile_ne _ _ _ hne]
      exact readFile_extractAllTo_mem _ _ _ _ hnd he

/-- C2 witness: downloading into fresh `data/food` from an oracle network
and archive leaves the destination directory in place, removes the archive,
and stores the extracted entry. -/
theorem C2_witness :
    emptyFS.isDir (dataPath ++ ["food"]) = false
    ∧ (download_data okNet okUnzip emptyFS "https://example.com/data/food.zip"
        "food" true).1.isDir (dataPath ++ ["food"]) = true
    ∧ (download_data okNet okUnzip emptyFS "https://example.com/data/food.zip"
        "food" true).1.fileExists
        (dataPath ++ [pathFinalSegment "https://example.com/data/food.zip"]) = false
    ∧ (download_data okNet okUnzip emptyFS "https://example.com/data/food.zip"
        "food" true).1.readFile ((dataPath ++ ["food"]) ++ splitSlash "pizza/x.jpg")
        = some [7] := by
  have h := C2_download_data_fresh_run okNet okUnzip emptyFS
    "https://example.com/data/food.zip" "food" true [1, 2] [("pizza/x.jpg", [7])]
    (by decide) rfl rfl (by decide) (by decide)
  exact ⟨by decide, h.2.1, h.2.2.1 rfl, h.2.2.2 ("pizza/x.jpg", [7]) (by decide)⟩

/-- C3: `download_data` has no rollback: the destination directory is
created before the download starts, so for every run that fails (in the
download or the extraction) after the directory creation, `data/<destination>`
exists afterwards, the (possibly truncated) archive file remains, and every
subsequent call with the same destination — with any network/archive oracle,
source and `remove_source` — takes the skip path, performing no effect and
not re-downloading. -/
theorem C3_download_data_no_rollback (net : String → Except PyError Bytes)
    (unzip : Bytes → Except PyError (List (String × Bytes)))
    (fs : FS) (source destination : String) (remove_source : Bool)
    (hdir : fs.isDir (dataPath ++ [destination]) = false)
    (hfail : ∃ e, (download_data net unzip fs source destination remove_source).2.2
        = .error e) :
    (download_data net unzip fs source destination remove_source).1.isDir
        (dataPath ++ [destination]) = true
    ∧ (download_data net unzip fs source destination remove_source).1.fileExists
        (dataPath ++ [pathFinalSegment source]) = true
    ∧ ∀ (net' : String → Except PyError Bytes)
        (unzip' : Bytes → Except PyError (List (String × Bytes)))
        (source' : String) (remove_source' : Bool),
        download_data net' unzip'
            (download_data net unzip fs source destination remove_source).1
            source' destination remove_source'
          = ((download_data net unzip fs source destination remove_source).1, [],
             .ok (dataPath ++ [destination])) := by
  obtain ⟨e, he⟩ := hfail
  have hip : (dataPath ++ [destination] : FsPath) ≠ [] := by simp [dataPath]
  have hkey : (download_data net unzip fs source destination remove_source).1.isDir
        (dataPath ++ [destination]) = true
      ∧ (download_data net unzip fs source destination remove_source).1.fileExists
        (dataPath ++ [pathFinalSegment source]) = true := by
    unfold download_data at he ⊢
    simp only [hdir, Bool.false_eq_true, if_false] at he ⊢
    cases hnet : net source with
    | error e1 =>
      simp only [hnet] at he ⊢
      constructor
      · rw [FS.isDir_writeFile]
        exact FS.isDir_mkdirParents_self _ _ hip
      · exact FS.fileExists_writeFile_self _ _ _
    | ok body =>
      simp only [hnet] at he ⊢
      cases hzip : unzip body with
      | error e2 =>
        simp only [hzip] at he ⊢
        constructor
        · rw [FS.isDir_writeFile, FS.isDir_writeFile]
          exact FS.isDir_mkdirParents_self _ _ hip
        · exact FS.fileExists_writeFile_self _ _ _
      | ok entries =>
        simp only [hzip] at he
        cases remove_source <;> simp at he
  refine ⟨hkey.1, hkey.2, ?_⟩
  intro net' unzip' source' remove_source'
  exact download_data_skip_helper net' unzip' _ source' destination remove_source' hkey.1

/-- C3 witness: after a failed download into fresh `data/food`, the
directory exists and a second call (even with a working network) skips,
returning the path without effects. -/
theorem C3_witness :
    (download_data failNet okUnzip emptyFS "https://x/a.zip" "food" true).1.isDir
        (dataPath ++ ["food"]) = true
    ∧ (download_data failNet okUnzip emptyFS "https://x/a.zip" "food" true).1.fileExists
        (dataPath ++ [pathFinalSegment "https://x/a.zip"]) = true
    ∧ download_data okNet okUnzip
        (download_data failNet okUnzip emptyFS "https://x/a.zip" "food" true).1
        "https://x/a.zip" "food" true
      = ((download_data failNet okUnzip emptyFS "https://x/a.zip" "food" true).1, [],
         .ok (dataPath ++ ["food"])) := by
  have h := C3_download_data_no_rollback failNet okUnzip emptyFS "https://x/a.zip"
    "food" true (by decide) ⟨.networkError "connection refused", rfl⟩
  exact ⟨h.1, h.2.1, h.2.2 okNet okUnzip "https://x/a.zip" true⟩

/-- A successfully constructed `ImageFolder` carries exactly the sorted
subdirectory names of its root as classes. -/
theorem ImageFolder_make_classes (fs : FS) (root : FsPath) (t : Transform)
    (d : ImageFolder) (h : ImageFolder.make fs root t = .ok d) :
    d.classes = find_classes fs root := by
  unfold ImageFolder.make at h
  split at h
  · cases h
  · split at h
    · cases h
    · cases h
      rfl

/-- C4: the class-name list returned by `create_dataloaders` is derived
solely from the training directory: it equals the sorted immediate
subdirectory names of `train_dir` (so its length and order match the number
and sorted discovery order of those subdirectories), and replacing the
testing directory (and its transform) by any other leaves the list
unchanged — the testing directory's contents are never validated against
it. -/
theorem C4_create_dataloaders_classes_from_train_only (cpu_count : Nat) (fs : FS)
    (train_dir test_dir : FsPath) (train_transform test_transform : Transform)
    (batch_size : Nat) (num_workers : Option Nat)
    (out : DataLoader × DataLoader × List String)
    (h : create_dataloaders cpu_count fs train_dir test_dir train_transform
        test_transform batch_size num_workers = .ok out) :
    out.2.2 = find_classes fs train_dir
    ∧ out.2.2 = sortStrings (scanSubdirNames fs train_dir)
    ∧ ∀ (test_dir2 : FsPath) (test_transform2 : Transform)
        (out2 : DataLoader × DataLoader × List String),
        create_dataloaders cpu_count fs train_dir test_dir2 train_transform
            test_transform2 batch_size num_workers = .ok out2 →
        out2.2.2 = out.2.2 := by
  have hmain : ∀ (td : FsPath) (tt : Transform)
      (o : DataLoader × DataLoader × List String),
      create_dataloaders cpu_count fs train_dir td train_transform tt
          batch_size num_workers = .ok o →
      o.2.2 = find_classes fs train_dir := by
    intro td tt o ho
    unfold create_dataloaders at ho
    cases h1 : ImageFolder.make fs train_dir train_transform with
    | error e => rw [h1] at ho; cases ho
    | ok train_data =>
      rw [h1] at ho
      cases h2 : ImageFolder.make fs td tt with
      | error e => rw [h2] at ho; cases ho
      | ok test_data =>
        rw [h2] at ho
        cases ho
        exact ImageFolder_make_classes fs train_dir train_transform train_data h1
  have h0 := hmain test_dir test_transform out h
  refine ⟨h0, h0, ?_⟩
  intro test_dir2 test_transform2 out2 h2
  rw [hmain test_dir2 test_transform2 out2 h2, h0]

/-- C4 witness: on the concrete image tree (whose test split has a `sushi`
class absent from the train split), the returned class list is exactly the
sorted train subdirectories, and swapping in the test directory as it is
does not change it. -/
theorem C4_witness :
    create_dataloaders 8 fsImageTree ["train"] ["test"] 0 1 32 none = .ok demoOut
    ∧ demoOut.2.2 = find_classes fsImageTree ["train"] := by
  have hok : create_dataloaders 8 fsImageTree ["train"] ["test"] 0 1 32 none
      = .ok demoOut := by exact rfl
  exact ⟨hok,
    (C4_create_dataloaders_classes_from_train_only 8 fsImageTree ["train"] ["test"]
      0 1 32 none demoOut hok).1⟩

/-- C5: the training producer returned by `create_dataloaders` is
constructed with shuffling enabled — each traversal visits the samples in
the fresh random permutation drawn at its start — while the testing producer
is constructed with shuffling disabled, so it yields its samples in the
identical directory-discovery order on every repeated traversal. -/
theorem C5_create_dataloaders_shuffle_asymmetry (cpu_count : Nat) (fs : FS)
    (train_dir test_dir : FsPath) (train_transform test_transform : Transform)
    (batch_size : Nat) (num_workers : Option Nat)
    (out : DataLoader × DataLoader × List String)
    (h : create_dataloaders cpu_count fs train_dir test_dir train_transform
        test_transform batch_size num_workers = .ok out) :
    out.1.shuffle = true
    ∧ out.2.1.shuffle = false
    ∧ (∀ randperm : List Nat,
        out.1.epochOrder randperm
          = randperm.filterMap (fun i => out.1.dataset.samples.get? i))
    ∧ (∀ randperm : List Nat, out.2.1.epochOrder randperm = out.2.1.dataset.samples)
    ∧ ∀ randperm1 randperm2 : List Nat,
        out.2.1.epochOrder randperm1 = out.2.1.epochOrder randperm2 := by
  unfold create_dataloaders at h
  cases h1 : ImageFolder.make fs train_dir train_transform with
  | error e => rw [h1] at h; cases h
  | ok train_data =>
    rw [h1] at h
    cases h2 : ImageFolder.make fs test_dir test_transform with
    | error e => rw [h2] at h; cases h
    | ok test_data =>
      rw [h2] at h
      cases h
      refine ⟨rfl, rfl, fun r => rfl, fun r => rfl, fun r1 r2 => rfl⟩

/-- C5 witness: on the concrete image tree, the train loader shuffles
(traversal follows the drawn permutation) and the test loader's traversal
order is the dataset order, identical across traversals. -/
theorem C5_witness :
    demoOut.1.shuffle = true
    ∧ demoOut.2.1.shuffle = false
    ∧ demoOut.2.1.epochOrder [1, 0] = demoOut.2.1.epochOrder [0, 1] := by
  have h := C5_create_dataloaders_shuffle_asymmetry 8 fsImageTree ["train"] ["test"]
    0 1 32 none demoOut (by exact rfl)
  exact ⟨h.1, h.2.1, h.2.2.2.2 [1, 0] [0, 1]⟩

/-- C6: both producers returned by `create_dataloaders` are constructed with
memory pinning enabled and carry the caller-supplied worker count; when the
caller omits `num_workers`, the default used is `NUM_WORKERS`, the host's
logical CPU core count captured once at module load. -/
theorem C6_create_dataloaders_pinning_and_workers (cpu_count : Nat) (fs : FS)
    (train_dir test_dir : FsPath) (train_transform test_transform : Transform)
    (batch_size : Nat) (num_workers : Option Nat)
    (out : DataLoader × DataLoader × List String)
    (h : create_dataloaders cpu_count fs train_dir test_dir train_transform
        test_transform batch_size num_workers = .ok out) :
    out.1.pin_memory = true
    ∧ out.2.1.pin_memory = true
    ∧ out.1.num_workers = num_workers.getD (NUM_WORKERS cpu_count)
    ∧ out.2.1.num_workers = num_workers.getD (NUM_WORKERS cpu_count)
    ∧ (num_workers = none → out.1.num_workers = NUM_WORKERS cpu_count
        ∧ out.2.1.num_workers = NUM_WORKERS cpu_count)
    ∧ NUM_WORKERS cpu_count = cpu_count := by
  unfold create_dataloaders at h
  cases h1 : ImageFolder.make fs train_dir train_transform with
  | error e => rw [h1] at h; cases h
  | ok train_data =>
    rw [h1] at h
    cases h2 : ImageFolder.make fs test_dir test_transform with
    | error e => rw [h2] at h; cases h
    | ok test_data =>
      rw [h2] at h
      cases h
      exact ⟨rfl, rfl, rfl, rfl, fun hn => by rw [hn]; exact ⟨rfl, rfl⟩, rfl⟩

/-- C6 witness: on the concrete run with `num_workers` omitted and a CPU
count of 8, both loaders pin memory and use 8 workers. -/
theorem C6_witness :
    demoOut.1.pin_memory = true
    ∧ demoOut.2.1.pin_memory = true
    ∧ demoOut.1.num_workers = NUM_WORKERS 8
    ∧ demoOut.2.1.num_workers = NUM_WORKERS 8 := by
  have h := C6_create_dataloaders_pinning_and_workers 8 fsImageTree ["train"] ["test"]
    0 1 32 none demoOut (by exact rfl)
  exact ⟨h.1, h.2.1, (h.2.2.2.2.1 rfl).1, (h.2.2.2.2.1 rfl).2⟩

/-- C7: for every call `create_model_baseline_vit(out_feats, device)`, the
returned model has gradient tracking disabled on every pretrained (non-head)
parameter, and its classification head is a single newly initialized linear
layer — the `nn.Linear` constructed right after re-seeding — mapping a fixed
768-dimensional input to exactly `out_feats` outputs, placed on the
requested device; in particular for `out_feats = 3` the head maps to exactly
3 output values. -/
theorem C7_create_model_frozen_backbone_new_head :
    ∀ (st : TorchState) (out_feats : Nat) (device : Option Device),
      ((create_model_baseline_vit st out_feats device).2.backbone.all
        (fun p => !p.requires_grad)) = true
      ∧ (create_model_baseline_vit st out_feats device).2.heads.in_features = 768
      ∧ (create_model_baseline_vit st out_feats device).2.heads.out_features = out_feats
      ∧ (create_model_baseline_vit st out_feats device).2.heads
          = (Linear.new (set_seeds st) 768 out_feats).toDevice device
      ∧ (create_model_baseline_vit st out_feats device).2.heads.device = device
      ∧ (create_model_baseline_vit st 3 device).2.heads.out_features = 3 := by
  intro st out_feats device
  cases device with
  | none =>
    refine ⟨?_, rfl, rfl, rfl, rfl, rfl⟩
    simp [create_model_baseline_vit, ViTModel.toDevice, List.all_map, Function.comp]
  | some dev =>
    refine ⟨?_, rfl, rfl, rfl, rfl, rfl⟩
    simp [create_model_baseline_vit, ViTModel.toDevice, List.all_map, Function.comp]

/-- C8: `create_model_baseline_vit` fixes the global random seed immediately
before constructing the new linear head, so the head's initialization is
reproducible: any two calls with the same `out_feats` and device — from any
two prior global RNG states — produce identical heads. -/
theorem C8_create_model_head_reproducible :
    ∀ (st1 st2 : TorchState) (out_feats : Nat) (device : Option Device),
      (create_model_baseline_vit st1 out_feats device).2.heads
        = (create_model_baseline_vit st2 out_feats device).2.heads := by
  intro st1 st2 out_feats device
  cases st1
  cases st2
  rfl

/-- C9: none of the three public functions catches, retries, transforms or
validates anything: a network error surfaces from `download_data` unchanged,
an archive error surfaces unchanged, a directory-scan error on either the
training or the testing directory surfaces from `create_dataloaders`
unchanged, and `create_model_baseline_vit` performs no check on `out_feats`
(even `0` is passed straight to the underlying linear layer) nor on the
device (any requested device is forwarded as given). -/
theorem C9_no_error_handling_no_validation :
    (∀ (net : String → Except PyError Bytes)
       (unzip : Bytes → Except PyError (List (String × Bytes)))
       (fs : FS) (source destination : String) (remove_source : Bool) (e : PyError),
       fs.isDir (dataPath ++ [destination]) = false →
       net source = .error e →
       (download_data net unzip fs source destination remove_source).2.2 = .error e)
    ∧ (∀ (net : String → Except PyError Bytes)
         (unzip : Bytes → Except PyError (List (String × Bytes)))
         (fs : FS) (source destination : String) (remove_source : Bool)
         (body : Bytes) (e : PyError),
         fs.isDir (dataPath ++ [destination]) = false →
         net source = .ok body →
         unzip body = .error e →
         (download_data net unzip fs source destination remove_source).2.2 = .error e)
    ∧ (∀ (cpu_count : Nat) (fs : FS) (train_dir test_dir : FsPath)
         (train_transform test_transform : Transform) (batch_size : Nat)
         (num_workers : Option Nat) (e : PyError),
         ImageFolder.make fs train_dir train_transform = .error e →
         create_dataloaders cpu_count fs train_dir test_dir train_transform
           test_transform batch_size num_workers = .error e)
    ∧ (∀ (cpu_count : Nat) (fs : FS) (train_dir test_dir : FsPath)
         (train_transform test_transform : Transform) (batch_size : Nat)
         (num_workers : Option Nat) (train_data : ImageFolder) (e : PyError),
         ImageFolder.make fs train_dir train_transform = .ok train_data →
         ImageFolder.make fs test_dir test_transform = .error e →
         create_dataloaders cpu_count fs train_dir test_dir train_transform
           test_transform batch_size num_workers = .error e)
    ∧ (∀ (st : TorchState) (out_feats : Nat) (device : Option Device),
         (create_model_baseline_vit st out_feats device).2.heads.out_features
           = out_feats)
    ∧ (∀ (st : TorchState) (device : Option Device),
         (create_model_baseline_vit st 0 device).2.heads.out_features = 0)
    ∧ (∀ (st : TorchState) (out_feats : Nat) (device : Option Device),
         (create_model_baseline_vit st out_feats device).2.heads.device = device) := by
  refine ⟨?_, ?_, ?_, ?_, ?_, ?_, ?_⟩
  · intro net unzip fs source destination remove_source e hdir hnet
    unfold download_data
    simp only [hdir, Bool.false_eq_true, if_false, hnet]
  · intro net unzip fs source destination remove_source body e hdir hnet hzip
    unfold download_data
    simp only [hdir, Bool.false_eq_true, if_false, hnet, hzip]
  · intro cpu_count fs train_dir test_dir ttr tte batch_size num_workers e h1
    unfold create_dataloaders
    rw [h1]
  · intro cpu_count fs train_dir test_dir ttr tte batch_size num_workers td e h1 h2
    unfold create_dataloaders
    rw [h1, h2]
  · intro st out_feats device
    cases device <;> rfl
  · intro st device
    cases device <;> rfl
  · intro st out_feats device
    cases device <;> rfl

/-- C9 witness: a concrete failing network call surfaces its error from
`download_data`, a concrete failing archive surfaces its error, a missing
training directory surfaces its scan error from `create_dataloaders`, and a
head with zero output features is built unchecked. -/
theorem C9_witness :
    (download_data failNet okUnzip emptyFS "https://x/a.zip" "food" true).2.2
        = .error (.networkError "connection refused")
    ∧ (download_data okNet failUnzip emptyFS "https://x/a.zip" "food" true).2.2
        = .error (.badZipFile "not a zip file")
    ∧ create_dataloaders 8 emptyFS ["train"] ["test"] 0 1 32 none
        = .error (.fileNotFound "root directory not found")
    ∧ (create_model_baseline_vit { seed := 7 } 0 none).2.heads.out_features = 0 := by
  refine ⟨?_, ?_, ?_, ?_⟩
  · exact C9_no_error_handling_no_validation.1 failNet okUnzip emptyFS
      "https://x/a.zip" "food" true _ (by decide) rfl
  · exact C9_no_error_handling_no_validation.2.1 okNet failUnzip emptyFS
      "https://x/a.zip" "food" true [1, 2] _ (by decide) rfl rfl
  · exact C9_no_error_handling_no_validation.2.2.1 8 emptyFS ["train"] ["test"]
      0 1 32 none _ (by exact rfl)
  · exact C9_no_error_handling_no_validation.2.2.2.2.2.1 { seed := 7 } none

/-- C10: when `download_data` is called with `remove_source=False` and the
download-and-extract path completes successfully, the downloaded archive
`data/<final path segment of source>` is left on disk; everything else about
the call is identical to the `remove_source=True` case: same returned path,
same directories, identical file contents at every other path, and the same
effect trace except for the final delete. -/
theorem C10_download_data_keep_source_frame (net : String → Except PyError Bytes)
    (unzip : Bytes → Except PyError (List (String × Bytes)))
    (fs : FS) (source destination : String)
    (body : Bytes) (entries : List (String × Bytes))
    (hdir : fs.isDir (dataPath ++ [destination]) = false)
    (hnet : net source = .ok body)
    (hzip : unzip body = .ok entries) :
    (download_data net unzip fs source destination false).2.2
        = .ok (dataPath ++ [destination])
    ∧ (download_data net unzip fs source destination false).1.fileExists
        (dataPath ++ [pathFinalSegment source]) = true
    ∧ (download_data net unzip fs source destination true).1
        = ((download_data net unzip fs source destination false).1).removeFile
            (dataPath ++ [pathFinalSegment source])
    ∧ (download_data net unzip fs source destination true).2.1
        = (download_data net unzip fs source destination false).2.1
            ++ [Effect.fileDelete (dataPath ++ [pathFinalSegment source])]
    ∧ (download_data net unzip fs source destination true).2.2
        = (download_data net unzip fs source destination false).2.2
    ∧ (download_data net unzip fs source destination true).1.dirs
        = (download_data net unzip fs source destination false).1.dirs
    ∧ ∀ q : FsPath, q ≠ dataPath ++ [pathFinalSegment source] →
        (download_data net unzip fs source destination true).1.readFile q
          = (download_data net unzip fs source destination false).1.readFile q := by
  have heqF : download_data net unzip fs source destination false
      = (extractAllTo
          (((fs.mkdirParents (dataPath ++ [destination])).writeFile
              (dataPath ++ [pathFinalSegment source]) []).writeFile
            (dataPath ++ [pathFinalSegment source]) body)
          (dataPath ++ [destination]) entries,
         [Effect.mkdir (dataPath ++ [destination]), Effect.netGet source,
          Effect.fileWrite (dataPath ++ [pathFinalSegment source]),
          Effect.extract (dataPath ++ [pathFinalSegment source])
            (dataPath ++ [destination])],
         .ok (dataPath ++ [destination])) := by
    unfold download_data
    simp only [hdir, Bool.false_eq_true, if_false, hnet, hzip]
  have heqT : download_data net unzip fs source destination true
      = ((extractAllTo
           (((fs.mkdirParents (dataPath ++ [destination])).writeFile
               (dataPath ++ [pathFinalSegment source]) []).writeFile
             (dataPath ++ [pathFinalSegment source]) body)
           (dataPath ++ [destination]) entries).removeFile
           (dataPath ++ [pathFinalSegment source]),
         [Effect.mkdir (dataPath ++ [destination]), Effect.netGet source,
          Effect.fileWrite (dataPath ++ [pathFinalSegment source]),
          Effect.extract (dataPath ++ [pathFinalSegment source])
            (dataPath ++ [destination]),
          Effect.fileDelete (dataPath ++ [pathFinalSegment source])],
         .ok (dataPath ++ [destination])) := by
    unfold download_data
    simp only [hdir, Bool.false_eq_true, if_false, hnet, hzip, if_true]
  refine ⟨by rw [heqF], ?_, by rw [heqF, heqT], by rw [heqF, heqT]; rfl,
    by rw [heqF, heqT], ?_, ?_⟩
  · rw [heqF]
    refine fileExists_extractAllTo_mono _ _ _ _ ?_
    exact FS.fileExists_writeFile_self _ _ _
  · rw [heqF, heqT]
    exact FS.dirs_removeFile _ _
  · intro q hq
    rw [heqF, heqT]
    exact FS.readFile_removeFile_ne _ _ _ hq

/-- C10 witness: on the concrete success run with `remove_source=False`, the
archive survives, and the `remove_source=True` state is exactly the
`remove_source=False` state with the archive removed. -/
theorem C10_witness :
    (download_data okNet okUnzip emptyFS "https://x/food.zip" "food" false).2.2
        = .ok (dataPath ++ ["food"])
    ∧ (download_data okNet okUnzip emptyFS "https://x/food.zip" "food" false).1.fileExists
        (dataPath ++ [pathFinalSegment "https://x/food.zip"]) = true
    ∧ (download_data okNet okUnzip emptyFS "https://x/food.zip" "food" true).1
        = ((download_data okNet okUnzip emptyFS "https://x/food.zip" "food"
            false).1).removeFile (dataPath ++ [pathFinalSegment "https://x/food.zip"]) := by
  have h := C10_download_data_keep_source_frame okNet okUnzip emptyFS
    "https://x/food.zip" "food" [1, 2] [("pizza/x.jpg", [7])] (by decide) rfl rfl
  exact ⟨h.1, h.2.1, h.2.2.1⟩
